import Mathlib

/-!
Verification of the OpenHexa CLI core (src/openhexa/cli.py): the local
configuration store with its workspace registry (add / activate / rm) and the
pipeline publish (push) and listing workflows.

The configuration file (configparser document) is embedded as a `Config`
structure: the `openhexa` section's fields (`debug`, `url`,
`current_workspace`), the `workspaces` section as an insertion-ordered
association list slug -> token, and the set of `pipelines.<slug>` sections as
a list of section names.  Remote collaborators (`get_workspace`,
`get_pipelines`, `get_pipeline`, `create_pipeline`, `upload_pipeline`) and the
interactive prompts are passed in as explicit parameters; the observable
behaviour of a command (persisted configuration, echoed lines, remote calls
made, exit code) is returned as an outcome structure.  Terminal styling
(`click.style`) is presentation only and modelled as the identity on strings.
-/

namespace OpenHexa

/-- The persisted configuration document (see `open_config` / `save_config`):
the `openhexa` section's `debug`, `url` and `current_workspace` fields, the
`workspaces` section as an association list slug -> token (insertion order,
unique keys as in configparser), and the names of the per-workspace
`pipelines.<slug>` sections. -/
structure Config where
  debug : Bool
  url : String
  current_workspace : String
  workspaces : List (String × String)
  pipelineSections : List String
deriving DecidableEq

/-- A freshly created configuration: empty workspace map, no active
workspace, debug off. -/
def defaultConfig : Config :=
  { debug := false
    url := "https://api.openhexa.org"
    current_workspace := ""
    workspaces := []
    pipelineSections := [] }

/-- Keys of the `workspaces` section, in order. -/
def keys (ws : List (String × String)) : List String :=
  ws.map Prod.fst

/-- `user_config["workspaces"].update({slug: token})` on a configparser
section: overwrite the value in place when the key exists, append a new entry
otherwise. -/
def setKey (ws : List (String × String)) (slug token : String) :
    List (String × String) :=
  if (keys ws).contains slug then
    ws.map (fun p => if p.1 == slug then (slug, token) else p)
  else
    ws ++ [(slug, token)]

/-- `click.style`: terminal colouring only, modelled as the identity. -/
def style (s : String) : String := s

/-- Outcome of `workspaces add`: the configuration left on disk, the echoed
lines, and whether an exception propagated out of the command. -/
structure AddOutcome where
  persisted : Config
  output : List String
  raised : Bool
deriving DecidableEq

/-- Outcome of `workspaces activate` / `workspaces rm`: the configuration left
on disk, the echoed lines, and the process exit code. -/
structure CmdOutcome where
  persisted : Config
  output : List String
  exitCode : Nat
deriving DecidableEq

/-- `workspaces_add` (cli.py lines 50-72).  `validationOk` is the result of
the remote `get_workspace` identity check: `false` means the call raised.  On
a failed check the error is echoed and, when debug is on, re-raised — which
aborts the command before the map update and before `save_config`, so the
persisted configuration is the original one. -/
def workspaces_add (cfg : Config) (slug token : String) (validationOk : Bool) :
    AddOutcome :=
  let existsMsg :=
    if (keys cfg.workspaces).contains slug then
      "Workspace " ++ slug ++ " already exists. We will only update its token."
    else
      "Adding workspace " ++ slug
  let errLines :=
    if validationOk then ([] : List String)
    else ["Error while getting workspace. Check the slug of the workspace and the access token."]
  if validationOk = false ∧ cfg.debug = true then
    { persisted := cfg
      output := [existsMsg] ++ errLines
      raised := true }
  else
    { persisted :=
        { cfg with
          workspaces := setKey cfg.workspaces slug token
          current_workspace := slug }
      output := [existsMsg] ++ errLines
      raised := false }

/-- `workspaces_activate` (cli.py lines 77-90): unknown slug echoes a
not-found message plus the known slugs and returns (exit code 0, nothing
saved changes); otherwise `current_workspace` is set. -/
def workspaces_activate (cfg : Config) (slug : String) : CmdOutcome :=
  if ¬ ((keys cfg.workspaces).contains slug) then
    { persisted := cfg
      output := ["Workspace " ++ slug ++ " does not exist. Available workspaces:",
                 String.intercalate ", " (keys cfg.workspaces)]
      exitCode := 0 }
  else
    { persisted := { cfg with current_workspace := slug }
      output := ["Activating workspace " ++ slug]
      exitCode := 0 }

/-- `workspaces_rm` (cli.py lines 113-132): unknown slug echoes a not-found
message and returns; otherwise the entry is deleted, the `pipelines.<slug>`
section is deleted when present, and `current_workspace` is cleared when it
equalled the slug. -/
def workspaces_rm (cfg : Config) (slug : String) : CmdOutcome :=
  if ¬ ((keys cfg.workspaces).contains slug) then
    { persisted := cfg
      output := ["Workspace " ++ slug ++ " does not exist"]
      exitCode := 0 }
  else
    { persisted :=
        { cfg with
          workspaces := cfg.workspaces.filter (fun p => p.1 != slug)
          pipelineSections :=
            if cfg.pipelineSections.contains ("pipelines." ++ slug) then
              cfg.pipelineSections.filter (fun s => s != "pipelines." ++ slug)
            else
              cfg.pipelineSections
          current_workspace :=
            if cfg.current_workspace = slug then "" else cfg.current_workspace }
      output := ["Removing workspace " ++ slug]
      exitCode := 0 }

/-- A workspace-registry command, for reasoning about sequences of
invocations.  `addOp slug token validationOk debugFlag` carries the outcome of
the remote check and the `--debug` flag of that invocation (the top-level
`app` group re-persists the flag into the configuration before the subcommand
runs). -/
inductive Op where
  | addOp : String → String → Bool → Bool → Op
  | activateOp : String → Op
  | rmOp : String → Op
deriving DecidableEq

/-- The configuration left on disk after one command invocation. -/
def applyOp (cfg : Config) : Op → Config
  | .addOp slug token ok dbg =>
      (workspaces_add { cfg with debug := dbg } slug token ok).persisted
  | .activateOp slug => (workspaces_activate cfg slug).persisted
  | .rmOp slug => (workspaces_rm cfg slug).persisted

/-- The configuration left on disk after a sequence of command invocations. -/
def runOps (cfg : Config) (ops : List Op) : Config :=
  ops.foldl applyOp cfg

/-- The data-model invariant: the current workspace is empty or a key of the
workspace map. -/
def configInvariant (cfg : Config) : Prop :=
  cfg.current_workspace = "" ∨ cfg.current_workspace ∈ keys cfg.workspaces

instance (cfg : Config) : Decidable (configInvariant cfg) := by
  unfold configInvariant
  infer_instance

/-- A pipeline record as returned by the backend listing:
`{code, name, currentVersion: {number?}}`.  `currentVersionNumber` is the
result of `pipeline["currentVersion"].get("number")`. -/
structure PipelineRecord where
  code : String
  name : String
  currentVersionNumber : Option Nat
deriving DecidableEq

/-- Modelled from the spec: `get_pipeline` lives in `openhexa/api.py`, not in
the sources at hand; per the spec's collaborator contract
(`get_pipeline(url, slug, token, code) -> PipelineInfo | absent`) it looks the
resolved code up among the active workspace's pipelines. -/
def get_pipeline (remote : List PipelineRecord) (code : String) :
    Option PipelineRecord :=
  remote.find? (fun p => p.code == code)

/-- The remote calls a pipelines command can make, in order. -/
inductive RemoteCall where
  | getPipelinesCall : RemoteCall
  | getPipelineCall : String → RemoteCall
  | createPipelineCall : String → RemoteCall
  | uploadPipelineCall : RemoteCall
deriving DecidableEq

/-- Remote calls that mutate backend state (`create_pipeline`,
`upload_pipeline`); the two lookups are reads. -/
def isMutationCall : RemoteCall → Bool
  | .createPipelineCall _ => true
  | .uploadPipelineCall => true
  | _ => false

/-- Outcome of a pipelines command: remote calls made in order, echoed lines,
process exit code, and whether the interactive create-confirmation prompt was
shown. -/
structure PushOutcome where
  calls : List RemoteCall
  output : List String
  exitCode : Nat
  prompted : Bool
deriving DecidableEq

/-- Rendering of the raw pipeline list echoed in debug mode
(`click.echo(workspace_pipelines)`); the exact text is presentation only. -/
def reprRemote (remote : List PipelineRecord) : String :=
  String.intercalate ", " (remote.map (fun p => p.code))

/-- `pipelines_push` (cli.py lines 176-233).  `pathExists` is the
`os.path.exists(path)` check; `importResult` is the code resolved by
`import_pipeline` (none when it raised); `remote` is the list returned by
`get_pipelines`; `confirmAnswer` is the operator's answer to the
create-confirmation prompt (`click.confirm` with `abort=True`: a declined
prompt raises Abort, which click turns into exit code 1); `newVersion` is the
number returned by `upload_pipeline`. -/
def pipelines_push (cfg : Config) (path : String) (pathExists : Bool)
    (importResult : Option String) (remote : List PipelineRecord)
    (confirmAnswer : Bool) (newVersion : Nat) : PushOutcome :=
  let workspace := cfg.current_workspace
  if workspace = "" then
    { calls := [], output := ["No workspace activated"], exitCode := 1,
      prompted := false }
  else if pathExists = false then
    { calls := [], output := [path ++ ": file not found"], exitCode := 1,
      prompted := false }
  else
    match importResult with
    | none =>
      { calls := [], output := ["Error while importing pipeline"],
        exitCode := 1, prompted := false }
    | some code =>
      let debugLines := if cfg.debug then [reprRemote remote] else []
      let doneLines :=
        ["Pushing pipeline " ++ style code ++ " to workspace " ++ style workspace,
         "Version: " ++ toString newVersion,
         "Done! You can view the pipeline in OpenHexa on " ++
           style (cfg.url ++ "/workspaces/" ++ workspace ++ "/pipelines/" ++ code)]
      match get_pipeline remote code with
      | none =>
        let notExistMsg :=
          "Pipeline " ++ style code ++ " found in " ++ path ++
            " does not exist in workspace " ++ style workspace
        if confirmAnswer = false then
          { calls := [RemoteCall.getPipelinesCall, RemoteCall.getPipelineCall code]
            output := debugLines ++ [notExistMsg, "Aborted!"]
            exitCode := 1
            prompted := true }
        else
          { calls := [RemoteCall.getPipelinesCall, RemoteCall.getPipelineCall code,
                      RemoteCall.createPipelineCall code, RemoteCall.uploadPipelineCall]
            output := debugLines ++ [notExistMsg] ++ doneLines
            exitCode := 0
            prompted := true }
      | some _ =>
        { calls := [RemoteCall.getPipelinesCall, RemoteCall.getPipelineCall code,
                    RemoteCall.uploadPipelineCall]
          output := debugLines ++ doneLines
          exitCode := 0
          prompted := false }

/-- The version label rendered by `pipelines list`:
`version = pipeline["currentVersion"].get("number"); if version: ... else
"N/A"` — note the Python truthiness test, under which the number 0 also
renders as "N/A". -/
def versionLabel : Option Nat → String
  | none => "N/A"
  | some n => if n = 0 then "N/A" else "v" ++ toString n

/-- One line of the `pipelines list` output. -/
def renderLine (p : PipelineRecord) : String :=
  "* " ++ p.code ++ " - " ++ p.name ++ " (" ++ versionLabel p.currentVersionNumber ++ ")"

/-- `pipelines_list` (cli.py lines 236-259). -/
def pipelines_list (cfg : Config) (remote : List PipelineRecord) : PushOutcome :=
  if cfg.current_workspace = "" then
    { calls := [], output := ["No workspace activated"], exitCode := 1,
      prompted := false }
  else if remote.length = 0 then
    { calls := [RemoteCall.getPipelinesCall]
      output := ["No pipelines in workspace " ++ cfg.current_workspace]
      exitCode := 0
      prompted := false }
  else
    { calls := [RemoteCall.getPipelinesCall]
      output := "Pipelines:" :: remote.map renderLine
      exitCode := 0
      prompted := false }


theorem lookup_cons_self (k v : String) (rest : List (String × String)) :
    List.lookup k ((k, v) :: rest) = some v := by
  simp [List.lookup]

theorem lookup_cons_ne (a : String) (p : String × String)
    (rest : List (String × String)) (h : a ≠ p.1) :
    List.lookup a (p :: rest) = List.lookup a rest := by
  have hne : (a == p.1) = false := by
    rw [beq_eq_false_iff_ne]
    exact h
  simp [List.lookup, hne]

theorem lookup_append_self (ws : List (String × String)) (slug token : String)
    (h : slug ∉ keys ws) :
    List.lookup slug (ws ++ [(slug, token)]) = some token := by
  induction ws with
  | nil => simp [List.lookup]
  | cons p rest ih =>
    have hp : slug ≠ p.1 := by
      intro he
      exact h (by simp [keys, he])
    rw [List.cons_append, lookup_cons_ne slug p _ hp]
    exact ih (fun hmem => h (by simp only [keys, List.map_cons, List.mem_cons]; exact Or.inr hmem))

theorem lookup_overwrite (ws : List (String × String)) (slug token : String)
    (h : slug ∈ keys ws) :
    List.lookup slug
      (ws.map (fun p => if p.1 == slug then (slug, token) else p)) = some token := by
  induction ws with
  | nil => simp [keys] at h
  | cons p rest ih =>
    simp only [List.map_cons]
    by_cases hp : p.1 = slug
    · have hif : (if p.1 == slug then (slug, token) else p) = (slug, token) := by
        simp [hp]
      rw [hif, lookup_cons_self]
    · have hif : (if p.1 == slug then (slug, token) else p) = p := by
        simp [hp]
      rw [hif, lookup_cons_ne slug p _ (fun he => hp he.symm)]
      apply ih
      simp only [keys, List.map_cons, List.mem_cons] at h
      rcases h with h | h
      · exact absurd h.symm hp
      · exact h

theorem lookup_setKey (ws : List (String × String)) (slug token : String) :
    List.lookup slug (setKey ws slug token) = some token := by
  unfold setKey
  by_cases h : (keys ws).contains slug
  · rw [if_pos h]
    exact lookup_overwrite ws slug token (List.elem_iff.mp h)
  · rw [if_neg h]
    exact lookup_append_self ws slug token (fun hm => h (List.elem_iff.mpr hm))

theorem mem_keys_setKey (ws : List (String × String)) (slug token : String) :
    slug ∈ keys (setKey ws slug token) := by
  unfold setKey
  by_cases h : (keys ws).contains slug
  · rw [if_pos h]
    have hm := List.elem_iff.mp h
    simp only [keys, List.mem_map] at hm ⊢
    obtain ⟨p, hp, hfst⟩ := hm
    exact ⟨(slug, token), ⟨p, hp, by simp [hfst]⟩, rfl⟩
  · rw [if_neg h]
    simp [keys]

theorem mem_keys_filterNe (ws : List (String × String)) (a slug : String)
    (h1 : a ∈ keys ws) (h2 : a ≠ slug) :
    a ∈ keys (ws.filter (fun p => p.1 != slug)) := by
  simp only [keys, List.mem_map, List.mem_filter] at h1 ⊢
  obtain ⟨p, hp, hfst⟩ := h1
  refine ⟨p, ⟨hp, ?_⟩, hfst⟩
  rw [bne_iff_ne]
  rw [hfst]
  exact h2

theorem not_mem_keys_filterNe (ws : List (String × String)) (slug : String) :
    slug ∉ keys (ws.filter (fun p => p.1 != slug)) := by
  simp only [keys, List.mem_map, List.mem_filter]
  rintro ⟨p, ⟨hp, hpred⟩, hfst⟩
  rw [bne_iff_ne] at hpred
  exact hpred hfst

theorem not_mem_filterNe (l : List String) (s : String) :
    s ∉ l.filter (fun x => x != s) := by
  simp only [List.mem_filter]
  rintro ⟨hm, hpred⟩
  rw [bne_iff_ne] at hpred
  exact hpred rfl

theorem add_preserves_invariant (cfg : Config) (slug token : String) (ok : Bool)
    (h : configInvariant cfg) :
    configInvariant (workspaces_add cfg slug token ok).persisted := by
  simp only [workspaces_add]
  split
  · exact h
  · exact Or.inr (mem_keys_setKey cfg.workspaces slug token)

theorem activate_preserves_invariant (cfg : Config) (slug : String)
    (h : configInvariant cfg) :
    configInvariant (workspaces_activate cfg slug).persisted := by
  simp only [workspaces_activate]
  split
  · exact h
  · rename_i hc
    rw [not_not] at hc
    exact Or.inr (List.elem_iff.mp hc)

theorem rm_preserves_invariant (cfg : Config) (slug : String)
    (h : configInvariant cfg) :
    configInvariant (workspaces_rm cfg slug).persisted := by
  simp only [workspaces_rm]
  split
  · exact h
  · by_cases hcur : cfg.current_workspace = slug
    · left
      simp only [configInvariant]
      rw [if_pos hcur]
    · rcases h with h0 | hmem
      · left
        rw [if_neg hcur]
        exact h0
      · right
        rw [if_neg hcur]
        exact mem_keys_filterNe cfg.workspaces cfg.current_workspace slug hmem hcur

theorem applyOp_preserves_invariant (cfg : Config) (op : Op)
    (h : configInvariant cfg) :
    configInvariant (applyOp cfg op) := by
  cases op with
  | addOp slug token ok dbg =>
    exact add_preserves_invariant _ slug token ok (by exact h)
  | activateOp slug => exact activate_preserves_invariant cfg slug h
  | rmOp slug => exact rm_preserves_invariant cfg slug h

theorem invariant_runOps (ops : List Op) (cfg : Config)
    (h : configInvariant cfg) :
    configInvariant (runOps cfg ops) := by
  induction ops generalizing cfg with
  | nil => exact h
  | cons op rest ih =>
    exact ih (applyOp cfg op) (applyOp_preserves_invariant cfg op h)

/-- C1: for every finite sequence of add / activate / rm invocations starting
from the default configuration (empty workspace map, empty current
workspace), the persisted configuration satisfies: `current_workspace` is
either the empty string or a key of the `workspaces` map. -/
theorem c1_current_workspace_invariant (ops : List Op) :
    configInvariant (runOps defaultConfig ops) :=
  invariant_runOps ops defaultConfig (Or.inl rfl)

/-- C2: removing a slug present in the workspace map deletes its entry,
leaves no `pipelines.<slug>` section behind, and clears `current_workspace`
when it pointed at the removed slug. -/
theorem c2_rm_removes_workspace (cfg : Config) (slug : String)
    (h : slug ∈ keys cfg.workspaces) :
    slug ∉ keys (workspaces_rm cfg slug).persisted.workspaces ∧
    ("pipelines." ++ slug) ∉ (workspaces_rm cfg slug).persisted.pipelineSections ∧
    (cfg.current_workspace = slug →
      (workspaces_rm cfg slug).persisted.current_workspace = "") := by
  have hc : (keys cfg.workspaces).contains slug = true := List.elem_iff.mpr h
  simp only [workspaces_rm]
  rw [if_neg (fun hn => hn hc)]
  refine ⟨?_, ?_, ?_⟩
  · exact not_mem_keys_filterNe cfg.workspaces slug
  · show ("pipelines." ++ slug) ∉
      (if cfg.pipelineSections.contains ("pipelines." ++ slug) then
        cfg.pipelineSections.filter (fun s => s != "pipelines." ++ slug)
      else cfg.pipelineSections)
    by_cases hs : cfg.pipelineSections.contains ("pipelines." ++ slug)
    · rw [if_pos hs]
      exact not_mem_filterNe _ _
    · rw [if_neg hs]
      intro hm
      exact hs (List.elem_iff.mpr hm)
  · intro hcur
    show (if cfg.current_workspace = slug then "" else cfg.current_workspace) = ""
    rw [if_pos hcur]

/-- Witness for C2 at a concrete configuration holding workspace `a` with a
`pipelines.a` section and `a` active. -/
theorem c2_rm_removes_workspace_witness :
    "a" ∉ keys (workspaces_rm ⟨false, "u", "a", [("a", "t")], ["pipelines.a"]⟩
      "a").persisted.workspaces ∧
    (workspaces_rm ⟨false, "u", "a", [("a", "t")], ["pipelines.a"]⟩
      "a").persisted.current_workspace = "" := by
  have h := c2_rm_removes_workspace
    ⟨false, "u", "a", [("a", "t")], ["pipelines.a"]⟩ "a" (by decide)
  exact ⟨h.1, h.2.2 rfl⟩

/-- C9: activate and rm on a slug absent from the workspace map leave the
configuration unchanged, exit with code 0, and only echo a not-found message
(activate additionally listing the known slugs). -/
theorem c9_unknown_slug_inline_noop (cfg : Config) (slug : String)
    (h : slug ∉ keys cfg.workspaces) :
    (workspaces_activate cfg slug).persisted = cfg ∧
    (workspaces_activate cfg slug).exitCode = 0 ∧
    (workspaces_activate cfg slug).output =
      ["Workspace " ++ slug ++ " does not exist. Available workspaces:",
       String.intercalate ", " (keys cfg.workspaces)] ∧
    (workspaces_rm cfg slug).persisted = cfg ∧
    (workspaces_rm cfg slug).exitCode = 0 ∧
    (workspaces_rm cfg slug).output = ["Workspace " ++ slug ++ " does not exist"] := by
  have hc : ¬ ((keys cfg.workspaces).contains slug = true) :=
    fun hm => h (List.elem_iff.mp hm)
  simp only [workspaces_activate, workspaces_rm]
  rw [if_pos hc, if_pos hc]
  exact ⟨rfl, rfl, rfl, rfl, rfl, rfl⟩

/-- Witness for C9 at a concrete configuration that does not know slug `x`. -/
theorem c9_unknown_slug_inline_noop_witness :
    (workspaces_activate ⟨false, "u", "a", [("a", "t")], []⟩ "x").persisted =
      ⟨false, "u", "a", [("a", "t")], []⟩ ∧
    (workspaces_rm ⟨false, "u", "a", [("a", "t")], []⟩ "x").persisted =
      ⟨false, "u", "a", [("a", "t")], []⟩ := by
  have h := c9_unknown_slug_inline_noop ⟨false, "u", "a", [("a", "t")], []⟩ "x"
    (by decide)
  exact ⟨h.1, h.2.2.2.1⟩

/-- C10: with debug on and a failed remote validation, add propagates the
error and the stored configuration is completely unchanged (the exception is
raised before the map update and before `save_config`). -/
theorem c10_add_debug_failure_preserves_state (cfg : Config) (slug token : String)
    (hdbg : cfg.debug = true) :
    (workspaces_add cfg slug token false).persisted = cfg ∧
    (workspaces_add cfg slug token false).raised = true := by
  simp only [workspaces_add]
  rw [if_pos (by simp [hdbg])]
  exact ⟨rfl, rfl⟩

/-- Witness for C10 at a concrete debug-enabled configuration. -/
theorem c10_add_debug_failure_preserves_state_witness :
    (workspaces_add ⟨true, "u", "", [], []⟩ "s" "t" false).persisted =
      ⟨true, "u", "", [], []⟩ ∧
    (workspaces_add ⟨true, "u", "", [], []⟩ "s" "t" false).raised = true :=
  c10_add_debug_failure_preserves_state ⟨true, "u", "", [], []⟩ "s" "t" rfl

/-- C8: a failed remote validation during add is only a warning when debug is
off — the error line is echoed, nothing is raised, and the slug -> token entry
is persisted with the slug becoming the current workspace; with debug on the
error propagates; and every successful add persists the entry and activates
the slug unconditionally. -/
theorem c8_add_validation_failure_semantics (cfg : Config) (slug token : String)
    (ok : Bool) :
    (ok = false → cfg.debug = false →
      "Error while getting workspace. Check the slug of the workspace and the access token."
        ∈ (workspaces_add cfg slug token ok).output ∧
      (workspaces_add cfg slug token ok).raised = false ∧
      List.lookup slug (workspaces_add cfg slug token ok).persisted.workspaces =
        some token ∧
      (workspaces_add cfg slug token ok).persisted.current_workspace = slug) ∧
    (ok = false → cfg.debug = true →
      (workspaces_add cfg slug token ok).raised = true) ∧
    (ok = true →
      List.lookup slug (workspaces_add cfg slug token ok).persisted.workspaces =
        some token ∧
      (workspaces_add cfg slug token ok).persisted.current_workspace = slug) := by
  refine ⟨?_, ?_, ?_⟩
  · intro hok hdbg
    subst hok
    simp only [workspaces_add]
    rw [if_neg (by simp [hdbg])]
    refine ⟨by simp, rfl, ?_, rfl⟩
    exact lookup_setKey cfg.workspaces slug token
  · intro hok hdbg
    subst hok
    simp only [workspaces_add]
    rw [if_pos (by simp [hdbg])]
  · intro hok
    subst hok
    simp only [workspaces_add]
    rw [if_neg (by simp)]
    exact ⟨lookup_setKey cfg.workspaces slug token, rfl⟩

/-- Witness for C8: a failed validation with debug off still persists the
entry and activates the slug. -/
theorem c8_add_validation_failure_semantics_witness :
    List.lookup "s" (workspaces_add ⟨false, "u", "", [], []⟩ "s" "t"
      false).persisted.workspaces = some "t" ∧
    (workspaces_add ⟨false, "u", "", [], []⟩ "s" "t"
      false).persisted.current_workspace = "s" := by
  have h := (c8_add_validation_failure_semantics ⟨false, "u", "", [], []⟩
    "s" "t" false).1 rfl rfl
  exact ⟨h.2.2.1, h.2.2.2⟩

/-- C5: with an empty `current_workspace`, both `pipelines push` and
`pipelines list` exit with code 1, echo the no-active-workspace message
("No workspace activated" in the code), and make no remote call. -/
theorem c5_no_active_workspace_fails (cfg : Config) (path : String)
    (pathExists : Bool) (importResult : Option String)
    (remote : List PipelineRecord) (confirmAnswer : Bool) (newVersion : Nat)
    (h : cfg.current_workspace = "") :
    (pipelines_push cfg path pathExists importResult remote confirmAnswer
        newVersion).exitCode = 1 ∧
    (pipelines_push cfg path pathExists importResult remote confirmAnswer
        newVersion).calls = [] ∧
    "No workspace activated" ∈
      (pipelines_push cfg path pathExists importResult remote confirmAnswer
        newVersion).output ∧
    (pipelines_list cfg remote).exitCode = 1 ∧
    (pipelines_list cfg remote).calls = [] ∧
    "No workspace activated" ∈ (pipelines_list cfg remote).output := by
  simp [pipelines_push, pipelines_list, h]

/-- Witness for C5 at a concrete configuration with no active workspace. -/
theorem c5_no_active_workspace_fails_witness :
    (pipelines_push ⟨false, "u", "", [("a", "t")], []⟩ "p" true (some "X") []
      true 1).exitCode = 1 ∧
    (pipelines_list ⟨false, "u", "", [("a", "t")], []⟩ []).exitCode = 1 := by
  have h := c5_no_active_workspace_fails ⟨false, "u", "", [("a", "t")], []⟩
    "p" true (some "X") [] true 1 rfl
  exact ⟨h.1, h.2.2.2.1⟩

/-- C3: when the resolved code is not found remotely, push always shows the
create-confirmation prompt; create happens only on a confirmed prompt;
declining yields a non-zero exit with no mutating remote call; confirming
places the create call strictly before the upload call. -/
theorem c3_push_create_requires_confirmation (cfg : Config) (path code : String)
    (remote : List PipelineRecord) (confirmAnswer : Bool) (newVersion : Nat)
    (hw : cfg.current_workspace ≠ "")
    (hfind : get_pipeline remote code = none) :
    (pipelines_push cfg path true (some code) remote confirmAnswer
        newVersion).prompted = true ∧
    (RemoteCall.createPipelineCall code ∈
        (pipelines_push cfg path true (some code) remote confirmAnswer
          newVersion).calls →
      confirmAnswer = true) ∧
    (confirmAnswer = false →
      (pipelines_push cfg path true (some code) remote confirmAnswer
          newVersion).exitCode ≠ 0 ∧
      ∀ c ∈ (pipelines_push cfg path true (some code) remote confirmAnswer
          newVersion).calls, isMutationCall c = false) ∧
    (confirmAnswer = true →
      ∃ i j, i < j ∧
        (pipelines_push cfg path true (some code) remote confirmAnswer
          newVersion).calls.get? i = some (RemoteCall.createPipelineCall code) ∧
        (pipelines_push cfg path true (some code) remote confirmAnswer
          newVersion).calls.get? j = some RemoteCall.uploadPipelineCall) := by
  cases confirmAnswer with
  | false =>
    simp [pipelines_push, hw, hfind, isMutationCall]
  | true =>
    have hprompt : (pipelines_push cfg path true (some code) remote true
        newVersion).prompted = true := by
      simp [pipelines_push, hw, hfind]
    have hcalls : (pipelines_push cfg path true (some code) remote true
        newVersion).calls =
        [RemoteCall.getPipelinesCall, RemoteCall.getPipelineCall code,
         RemoteCall.createPipelineCall code, RemoteCall.uploadPipelineCall] := by
      simp [pipelines_push, hw, hfind]
    refine ⟨hprompt, fun _ => rfl, fun hcontra => by simp at hcontra, fun _ => ?_⟩
    rw [hcalls]
    exact ⟨2, 3, by norm_num, rfl, rfl⟩

/-- Witness for C3: on an empty remote list with a declined confirmation, the
exit code is non-zero and the prompt was shown. -/
theorem c3_push_create_requires_confirmation_witness :
    (pipelines_push ⟨false, "u", "ws", [("ws", "t")], []⟩ "p" true (some "X")
      [] false 1).exitCode ≠ 0 ∧
    (pipelines_push ⟨false, "u", "ws", [("ws", "t")], []⟩ "p" true (some "X")
      [] false 1).prompted = true := by
  have h := c3_push_create_requires_confirmation
    ⟨false, "u", "ws", [("ws", "t")], []⟩ "p" "X" [] false 1 (by decide) rfl
  exact ⟨(h.2.2.1 rfl).1, h.1⟩

/-- C4: when the resolved code is already present remotely, push performs the
two lookups and the upload only — no create call, no confirmation prompt, no
other remote action — and exits successfully. -/
theorem c4_push_update_path_direct_upload (cfg : Config) (path code : String)
    (rec : PipelineRecord) (remote : List PipelineRecord)
    (confirmAnswer : Bool) (newVersion : Nat)
    (hw : cfg.current_workspace ≠ "")
    (hfind : get_pipeline remote code = some rec) :
    (pipelines_push cfg path true (some code) remote confirmAnswer
        newVersion).calls =
      [RemoteCall.getPipelinesCall, RemoteCall.getPipelineCall code,
       RemoteCall.uploadPipelineCall] ∧
    (pipelines_push cfg path true (some code) remote confirmAnswer
        newVersion).prompted = false ∧
    (∀ s, RemoteCall.createPipelineCall s ∉
      (pipelines_push cfg path true (some code) remote confirmAnswer
        newVersion).calls) ∧
    (pipelines_push cfg path true (some code) remote confirmAnswer
        newVersion).exitCode = 0 := by
  have hcalls : (pipelines_push cfg path true (some code) remote confirmAnswer
      newVersion).calls =
      [RemoteCall.getPipelinesCall, RemoteCall.getPipelineCall code,
       RemoteCall.uploadPipelineCall] := by
    simp [pipelines_push, hw, hfind]
  refine ⟨hcalls, by simp [pipelines_push, hw, hfind], ?_,
    by simp [pipelines_push, hw, hfind]⟩
  intro s
  rw [hcalls]
  simp

/-- Witness for C4 at a remote list already holding the pushed code. -/
theorem c4_push_update_path_direct_upload_witness :
    (pipelines_push ⟨false, "u", "ws", [("ws", "t")], []⟩ "p" true (some "X")
      [⟨"X", "Xname", some 1⟩] true 2).prompted = false ∧
    (pipelines_push ⟨false, "u", "ws", [("ws", "t")], []⟩ "p" true (some "X")
      [⟨"X", "Xname", some 1⟩] true 2).exitCode = 0 := by
  have h := c4_push_update_path_direct_upload
    ⟨false, "u", "ws", [("ws", "t")], []⟩ "p" "X" ⟨"X", "Xname", some 1⟩
    [⟨"X", "Xname", some 1⟩] true 2 (by decide) rfl
  exact ⟨h.2.1, h.2.2.2⟩

/-- C6: whenever push reaches the upload step (existing pipeline, or a
confirmed create), the output contains the "Version: N" line for the version
returned by the upload and the done line carrying the deep link
`{url}/workspaces/{slug}/pipelines/{code}`. -/
theorem c6_push_reports_version_and_link (cfg : Config) (path code : String)
    (remote : List PipelineRecord) (confirmAnswer : Bool) (newVersion : Nat)
    (hw : cfg.current_workspace ≠ "")
    (hbranch : (∃ rec, get_pipeline remote code = some rec) ∨
      (get_pipeline remote code = none ∧ confirmAnswer = true)) :
    ("Version: " ++ toString newVersion) ∈
      (pipelines_push cfg path true (some code) remote confirmAnswer
        newVersion).output ∧
    ("Done! You can view the pipeline in OpenHexa on " ++
        (cfg.url ++ "/workspaces/" ++ cfg.current_workspace ++ "/pipelines/" ++
          code)) ∈
      (pipelines_push cfg path true (some code) remote confirmAnswer
        newVersion).output := by
  rcases hbranch with ⟨rec, hfind⟩ | ⟨hfind, hconfirm⟩
  · constructor <;> simp [pipelines_push, hw, hfind, style]
  · subst hconfirm
    constructor <;> simp [pipelines_push, hw, hfind, style]

/-- Witness for C6: an upload returning version 7 on the update path reports
"Version: 7" and the composed deep link. -/
theorem c6_push_reports_version_and_link_witness :
    "Version: 7" ∈ (pipelines_push ⟨false, "u", "ws", [("ws", "t")], []⟩ "p"
      true (some "X") [⟨"X", "Xname", some 1⟩] true 7).output ∧
    "Done! You can view the pipeline in OpenHexa on u/workspaces/ws/pipelines/X" ∈
      (pipelines_push ⟨false, "u", "ws", [("ws", "t")], []⟩ "p" true (some "X")
        [⟨"X", "Xname", some 1⟩] true 7).output := by
  have h := c6_push_reports_version_and_link
    ⟨false, "u", "ws", [("ws", "t")], []⟩ "p" "X" [⟨"X", "Xname", some 1⟩]
    true 7 (by decide) (Or.inl ⟨⟨"X", "Xname", some 1⟩, rfl⟩)
  exact ⟨h.1, h.2⟩

/-- C7 counterexample: a pipeline record whose `currentVersion.number` is
present with value 0 still renders as "(N/A)" — the code tests the number for
Python truthiness, not for presence — refuting "(N/A) exactly when no
current_version.number is present". -/
theorem c7_version_zero_counterexample :
    (pipelines_list ⟨false, "u", "ws", [("ws", "t")], []⟩
      [⟨"A", "Alpha", some 0⟩]).output = ["Pipelines:", "* A - Alpha (N/A)"] ∧
    (⟨"A", "Alpha", some 0⟩ : PipelineRecord).currentVersionNumber ≠ none := by
  refine ⟨by decide, by decide⟩

theorem renderLine_some_nonzero (code name : String) (n : Nat) (hn : n ≠ 0) :
    renderLine ⟨code, name, some n⟩ =
      "* " ++ code ++ " - " ++ name ++ " (v" ++ toString n ++ ")" := by
  have hv : ∀ X : String, " (" ++ ("v" ++ X) = " (v" ++ X := by
    intro X
    rw [← String.append_assoc]
    rfl
  simp only [renderLine, versionLabel]
  rw [if_neg hn]
  simp [String.append_assoc, hv]

theorem renderLine_absent_or_zero (code name : String) (vn : Option Nat)
    (h : vn = none ∨ vn = some 0) :
    renderLine ⟨code, name, vn⟩ = "* " ++ code ++ " - " ++ name ++ " (N/A)" := by
  have hlabel : versionLabel vn = "N/A" := by
    rcases h with h | h <;> subst h <;> simp [versionLabel]
  have hx : ∀ X : String, " (" ++ ("N/A" ++ X) = " (N/A" ++ X := by
    intro X
    rw [← String.append_assoc]
    rfl
  simp only [renderLine, hlabel]
  simp [String.append_assoc, hx]

/-- C7 amended: each listed record renders as "* {code} - {name} (v{N})" when
its `currentVersion.number` is present with a non-zero value N, and as
"* {code} - {name} (N/A)" when the number is absent or equal to 0 (the code's
truthiness test maps 0 to "N/A" as well). -/
theorem c7_list_rendering_amended (cfg : Config) (remote : List PipelineRecord)
    (code name : String) (vn : Option Nat)
    (hw : cfg.current_workspace ≠ "")
    (hmem : (⟨code, name, vn⟩ : PipelineRecord) ∈ remote) :
    (∀ n, vn = some n → n ≠ 0 →
      ("* " ++ code ++ " - " ++ name ++ " (v" ++ toString n ++ ")") ∈
        (pipelines_list cfg remote).output) ∧
    ((vn = none ∨ vn = some 0) →
      ("* " ++ code ++ " - " ++ name ++ " (N/A)") ∈
        (pipelines_list cfg remote).output) := by
  have hlen : ¬ (remote.length = 0) := by
    intro h0
    rw [List.length_eq_zero] at h0
    subst h0
    simp at hmem
  have hout : (pipelines_list cfg remote).output =
      "Pipelines:" :: remote.map renderLine := by
    simp [pipelines_list, hw, hlen]
  constructor
  · intro n hn hnz
    subst hn
    rw [hout, ← renderLine_some_nonzero code name n hnz]
    exact List.mem_cons_of_mem _ (List.mem_map_of_mem renderLine hmem)
  · intro hna
    rw [hout, ← renderLine_absent_or_zero code name vn hna]
    exact List.mem_cons_of_mem _ (List.mem_map_of_mem renderLine hmem)

/-- Witness for the amended C7 on the spec's own examples: Beta at version 3
renders with "(v3)", Alpha with an absent number renders with "(N/A)". -/
theorem c7_list_rendering_amended_witness :
    "* B - Beta (v3)" ∈ (pipelines_list ⟨false, "u", "ws", [("ws", "t")], []⟩
      [⟨"A", "Alpha", none⟩, ⟨"B", "Beta", some 3⟩]).output ∧
    "* A - Alpha (N/A)" ∈ (pipelines_list ⟨false, "u", "ws", [("ws", "t")], []⟩
      [⟨"A", "Alpha", none⟩, ⟨"B", "Beta", some 3⟩]).output := by
  have hb := (c7_list_rendering_amended ⟨false, "u", "ws", [("ws", "t")], []⟩
    [⟨"A", "Alpha", none⟩, ⟨"B", "Beta", some 3⟩] "B" "Beta" (some 3)
    (by decide) (by decide)).1 3 rfl (by decide)
  have ha := (c7_list_rendering_amended ⟨false, "u", "ws", [("ws", "t")], []⟩
    [⟨"A", "Alpha", none⟩, ⟨"B", "Beta", some 3⟩] "A" "Alpha" none
    (by decide) (by decide)).2 (Or.inl rfl)
  exact ⟨hb, ha⟩

end OpenHexa
